import Mathlib

/-!
Shallow embedding of the NetTest diagnostic probe (`nettest/__init__.py`).

The program is a façade over sockets, subprocesses and HTTP requests.  Each
probe is embedded as a pure function over an explicit environment record that
carries the data the outside world would supply (socket connect outcomes,
command stdout, HTTP response bodies), together with the explicit pieces of
mutable state the source touches (the process-wide default socket timeout set
by `socket.setdefaulttimeout`, and the instance's `_public_ip` cache).

Python exceptions that the source lets escape are modelled with `Except`;
probes that swallow all their exceptions are total functions returning their
sentinel on failure.  The platform-conditional branches are embedded for the
Linux branch (`"Linux" in PLATFORM_NAME`), the platform the gateway claim is
about; the aggregation claims do not depend on the platform branch taken.

String primitives (`strip`, `split`, substring test) are re-implemented by
structural recursion over character lists so that every definition evaluates
inside the kernel.
-/

/-- Python exceptions that cross a boundary we model. -/
inductive PyExn where
  | nameError
  | attributeError
deriving DecidableEq, Repr

/-- The space character, written via its code point. -/
def spaceChar : Char := Char.ofNat 32

/-- The dot character, written via its code point. -/
def dotChar : Char := Char.ofNat 46

/-- The newline character, written via its code point. -/
def newlineChar : Char := Char.ofNat 10

/-- Drop leading whitespace characters. -/
def dropLeadingWs : List Char → List Char
  | [] => []
  | c :: cs => if c.isWhitespace then dropLeadingWs cs else c :: cs

/-- Models Python `str.strip()`: drop leading and trailing whitespace. -/
def pyStrip (s : String) : String :=
  String.mk ((dropLeadingWs (dropLeadingWs s.data).reverse).reverse)

/-- Accumulator pass behind `pySplitWs` (Python `str.split()` with no
separator): whitespace runs separate tokens and no empty tokens are
produced; the accumulator holds the current token reversed. -/
def splitWsGo : List Char → List Char → List String
  | [], acc => if acc.isEmpty then [] else [String.mk acc.reverse]
  | c :: cs, acc =>
      if c.isWhitespace then
        if acc.isEmpty then splitWsGo cs []
        else String.mk acc.reverse :: splitWsGo cs []
      else splitWsGo cs (c :: acc)

/-- Models Python `str.split()` with no separator. -/
def pySplitWs (s : String) : List String := splitWsGo s.data []

/-- Accumulator pass behind `splitOnChar`. -/
def splitOnCharGo (sep : Char) : List Char → List Char → List String
  | [], acc => [String.mk acc.reverse]
  | c :: cs, acc =>
      if c = sep then String.mk acc.reverse :: splitOnCharGo sep cs []
      else splitOnCharGo sep cs (c :: acc)

/-- Models Python `str.split(sep)` for a one-character separator: empty
segments are kept. -/
def splitOnChar (sep : Char) (s : String) : List String := splitOnCharGo sep s.data []

/-- Strip a literal prefix from a character list, returning the remainder. -/
def stripPrefixL : List Char → List Char → Option (List Char)
  | [], cs => some cs
  | _ :: _, [] => none
  | p :: ps, c :: cs => if p = c then stripPrefixL ps cs else none

/-- Substring test, Python `needle in hay`. -/
def containsSubstrL (needle : List Char) : List Char → Bool
  | [] => (stripPrefixL needle []).isSome
  | c :: cs => (stripPrefixL needle (c :: cs)).isSome || containsSubstrL needle cs

/-- Models Python truthiness of an optional string field: `None` and the
empty string are falsy. -/
def pyTruthy (c : Option String) : Bool :=
  match c with
  | none => false
  | some s => !(s == "")

/-- A Python float that may be positive infinity (the sentinel the spec uses
for latency). -/
inductive PyNum where
  | val (q : ℚ)
  | posInf
deriving DecidableEq, Repr

/-- The process-wide socket state mutated by `socket.setdefaulttimeout`. -/
structure SocketGlobal where
  defaultTimeout : Option ℚ
deriving DecidableEq, Repr

/-- Embeds `NetTest.is_connected(timeout, host, port)`.  The source first calls
`socket.setdefaulttimeout(timeout)` (mutating process-wide state), then opens a
TCP socket and connects; `connectOk` is the environment's answer to whether
`sock.connect((host, port))` succeeds.  On success it returns `True`, on any
exception it returns `False`; either way the global default timeout has already
been set and is never restored. -/
def is_connected (timeout : ℚ) (_host : String) (_port : Nat) (connectOk : Bool)
    (_g : SocketGlobal) : Bool × SocketGlobal :=
  (connectOk, { defaultTimeout := some timeout })

/-- Result of one HTTP GET as seen through `requests`: a 2xx response with a
body, a non-2xx status (which `raise_for_status` turns into an exception), or
a transport failure.  Both error forms are `requests.exceptions.RequestException`
subclasses and are caught by the same handler in the source. -/
inductive HttpResult where
  | success (body : String)
  | httpError (code : Nat)
  | transportError
deriving DecidableEq, Repr

/-- Whether an `HttpResult` raises a `RequestException`. -/
def isErrResp (e : HttpResult) : Bool :=
  match e with
  | HttpResult.success _ => false
  | HttpResult.httpError _ => true
  | HttpResult.transportError => true

/-- Outcome of one `NetTest.get_public_ip` call: the returned string, the
`_public_ip` cache afterwards, and whether an HTTP request was issued. -/
structure GetPubIpResult where
  ret : String
  cache : Option String
  requested : Bool
deriving DecidableEq, Repr

/-- Embeds `NetTest.get_public_ip`.  The source checks `if self._public_ip:`
(truthiness, so an empty cached string counts as absent) and returns the cache
without any request; otherwise it issues one GET, and on success strips the
body, caches it and returns it; on any `RequestException` it returns "n/a"
leaving the cache untouched. -/
def get_public_ip (cache : Option String) (resp : HttpResult) : GetPubIpResult :=
  if pyTruthy cache then
    { ret := cache.getD "", cache := cache, requested := false }
  else
    match resp with
    | HttpResult.success body =>
        let ip := pyStrip body
        { ret := ip, cache := some ip, requested := true }
    | HttpResult.httpError _ => { ret := "n/a", cache := cache, requested := true }
    | HttpResult.transportError => { ret := "n/a", cache := cache, requested := true }

/-- The parsed JSON object returned by the `ipinfo.io/json` endpoint, with the
two fields the source reads via `data.get(...)` (absent fields read as `None`). -/
structure IpInfoJson where
  org : Option String
  ip : Option String
deriving DecidableEq, Repr

/-- Result of the ISP-info HTTP GET. -/
inductive IspResult where
  | success (j : IpInfoJson)
  | httpError (code : Nat)
  | transportError
deriving DecidableEq, Repr

/-- Models `" " in org`: whether a character list contains a space. -/
def containsSpace (l : List Char) : Bool := l.any (fun c => c = spaceChar)

/-- Helper for Python `org.split(" ", 1)[1]`: everything after the first
space character. -/
def afterFirstSpaceAux : List Char → List Char
  | [] => []
  | c :: cs => if c = spaceChar then cs else afterFirstSpaceAux cs

/-- Models Python `org.split(" ", 1)[1]` (defined when `org` contains a space):
the substring after the first space. -/
def afterFirstSpace (s : String) : String := String.mk (afterFirstSpaceAux s.data)

/-- The value `get_isp_name` computes from the optional "org" field: a falsy
(absent or empty) org yields "n/a"; an org with a space is returned with
everything up to the first space stripped (`org.split(" ", 1)[1]`); an org
without a space is returned whole. -/
def ispFromOrg (org : Option String) : String :=
  match org with
  | none => "n/a"
  | some o =>
      if o == "" then "n/a"
      else if containsSpace o.data then afterFirstSpace o else o

/-- The cache update `get_isp_name` performs: only when the current cache is
falsy and the response's "ip" field is truthy it stores that field. -/
def ispCacheUpdate (cache : Option String) (ip : Option String) : Option String :=
  if pyTruthy cache then cache
  else
    match ip with
    | some s => if s == "" then cache else some s
    | none => cache

/-- Embeds `NetTest.get_isp_name`.  On a successful GET it reads the optional
"org" and "ip" fields, opportunistically populates the `_public_ip` cache
(see `ispCacheUpdate`), and returns the organization name derived from "org"
(see `ispFromOrg`).  Any `RequestException` yields "n/a".  Returns the value
and the cache afterwards. -/
def get_isp_name (cache : Option String) (resp : IspResult) : String × Option String :=
  match resp with
  | IspResult.httpError _ => ("n/a", cache)
  | IspResult.transportError => ("n/a", cache)
  | IspResult.success j => (ispFromOrg j.org, ispCacheUpdate cache j.ip)

/-- Environment for `NetTest.get_gateway_ip` on Linux: the lines of
`/proc/net/route` (`none` models an `IOError` opening it), the stdout of
`ip r s 0/0` (`none` models a subprocess error, timeout or missing binary),
and the local address a UDP socket to 8.8.8.8 would bind (`none` models a
socket error). -/
structure GatewayEnv where
  procNetRoute : Option (List String)
  ipRouteOut : Option String
  udpLocalIp : Option String
deriving DecidableEq, Repr

/-- Whether a `/proc/net/route` data line is a default route with a nonzero
gateway field: `len(fields) > 2 and fields[1] == '00000000'` and
`fields[2] != '00000000'`. -/
def defaultRouteHit (line : String) : Bool :=
  let fields := pySplitWs line
  decide (fields.length > 2) && (fields.getD 1 "" == "00000000")
    && !(fields.getD 2 "" == "00000000")

/-- Stage (a) of the Linux branch of `get_gateway_ip`: parse `/proc/net/route`.
The source was written to catch `(IOError, ValueError, struct.error)` and fall
through, but the module never imports `struct`, so:
  * reaching `struct.pack` on a default-route line raises `NameError` directly;
  * any other exception from the body (an `IOError` opening the file, the
    `StopIteration` from `next(f)` on an empty file, a `ValueError` from
    `int(gateway_hex, 16)`) makes Python evaluate the except clause, and the
    name `struct` in it raises `NameError` while handling that exception.
Either way a `NameError` propagates; the outer handler catches only
`(SubprocessError, TimeoutExpired, FileNotFoundError)`, so it escapes the
method.  Only when the file reads fine and holds no matching default-route
line does control fall through to stage (b). -/
def gateway_stage_a (procNetRoute : Option (List String)) : Except PyExn Unit :=
  match procNetRoute with
  | none => Except.error PyExn.nameError
  | some [] => Except.error PyExn.nameError
  | some (_hdr :: rest) =>
      if rest.any defaultRouteHit then Except.error PyExn.nameError
      else Except.ok ()

/-- One line of `ip r s 0/0` output: if the line contains the substring "via"
(Python `"via" in line`), find the first token equal to "via" and return the
token after it when both exist; otherwise the loop continues. -/
def viaToken (line : String) : Option String :=
  if containsSubstrL "via".data line.data then
    let parts := pySplitWs line
    match parts.findIdx? (fun t => t == "via") with
    | some i => parts[i + 1]?
    | none => none
  else none

/-- Stage (b) of the Linux branch of `get_gateway_ip`: scan the stdout of
`ip r s 0/0` line by line for a gateway token. -/
def gateway_stage_b (out : String) : Option String :=
  (splitOnChar newlineChar out).findSome? viaToken

/-- Stage (c), the cross-platform fallback of `get_gateway_ip`: take the local
IP a UDP socket binds, and when it splits on "." into exactly four parts,
return the first three joined with a final ".1". -/
def gateway_stage_c (udpLocalIp : Option String) : Option String :=
  match udpLocalIp with
  | none => none
  | some lip =>
      let parts := splitOnChar dotChar lip
      if parts.length == 4 then
        some (parts.getD 0 "" ++ "." ++ parts.getD 1 "" ++ "." ++ parts.getD 2 "" ++ ".1")
      else none

/-- Embeds `NetTest.get_gateway_ip` for the Linux platform branch.  Stage (a)
may let a `NameError` escape (see `gateway_stage_a`); a stage (b) subprocess
failure is caught by the outer handler and control continues at stage (c);
total failure of the remaining stages returns the sentinel "n/a". -/
def get_gateway_ip_linux (env : GatewayEnv) : Except PyExn String :=
  match gateway_stage_a env.procNetRoute with
  | Except.error e => Except.error e
  | Except.ok _ =>
      let viaRes :=
        match env.ipRouteOut with
        | none => none
        | some out => gateway_stage_b out
      match viaRes with
      | some gw => Except.ok gw
      | none =>
          match gateway_stage_c env.udpLocalIp with
          | some gw => Except.ok gw
          | none => Except.ok "n/a"

/-- Candidate filter used by `get_machine_ip`:
`if ip and not ip.startswith(('127.', '169.254.'))`. -/
def validCandidate (ip : String) : Bool :=
  !(ip == "") &&
    !((stripPrefixL "127.".data ip.data).isSome ||
      (stripPrefixL "169.254.".data ip.data).isSome)

/-- Environment for `NetTest.get_machine_ip` on Linux: the local addresses the
UDP-socket probes to the three hardcoded hosts would bind (in order; `none`
models a per-host connect failure), and the stdout of each fallback command
(`none` models a subprocess error). -/
structure MachineIpEnv where
  socketIps : List (Option String)
  hostnameOut : Option String
  ifconfigOut : Option String
  ipAddrOut : Option String
deriving DecidableEq, Repr

/-- Method 1 of `get_machine_ip`: first socket-derived candidate that passes
the filter; a failed connect or a rejected candidate moves to the next host. -/
def machine_ip_method1 (ips : List (Option String)) : Option String :=
  ips.findSome? fun r =>
    match r with
    | some ip => if validCandidate ip then some ip else none
    | none => none

/-- The `hostname -I` branch of `get_machine_ip`: strip the stdout, split on
whitespace, return the first token passing the filter. -/
def machine_ip_hostname (out : String) : Option String :=
  (pySplitWs (pyStrip out)).findSome? fun ip =>
    if validCandidate ip then some ip else none

/-- Greedy run of digits at the head of a character list (regex `\d+`):
the digits taken and the remainder. -/
def takeDigits (cs : List Char) : List Char × List Char :=
  match cs with
  | [] => ([], [])
  | c :: rest =>
      if c.isDigit then
        let dr := takeDigits rest
        (c :: dr.1, dr.2)
      else ([], c :: rest)

/-- Parse regex `\.\d+` at the head of a character list, returning the matched
characters and the remainder. -/
def parseDotDigits (cs : List Char) : Option (List Char × List Char) :=
  match cs with
  | [] => none
  | c :: rest =>
      if c = dotChar then
        match takeDigits rest with
        | ([], _) => none
        | (d, r) => some (c :: d, r)
      else none

/-- Parse regex `\d+\.\d+\.\d+\.\d+` at the head of a character list. -/
def parseQuad (cs : List Char) : Option (List Char × List Char) :=
  match takeDigits cs with
  | ([], _) => none
  | (d1, r1) =>
      match parseDotDigits r1 with
      | none => none
      | some (d2, r2) =>
          match parseDotDigits r2 with
          | none => none
          | some (d3, r3) =>
              match parseDotDigits r3 with
              | none => none
              | some (d4, r4) => some (d1 ++ d2 ++ d3 ++ d4, r4)

/-- Try to match regex `inet (?:addr:)?(\d+\.\d+\.\d+\.\d+)` at the head of a
character list, returning the captured group.  When "addr:" is present but no
quad follows it, the regex engine's retry without the optional group also
fails (the next character is the letter "a", not a digit), so not retrying is
observationally equal. -/
def matchInetAt (cs : List Char) : Option String :=
  match stripPrefixL "inet ".data cs with
  | none => none
  | some r1 =>
      let r2 := (stripPrefixL "addr:".data r1).getD r1
      match parseQuad r2 with
      | none => none
      | some (quad, _) => some (String.mk quad)

/-- Models `re.findall(r'inet (?:addr:)?(\d+\.\d+\.\d+\.\d+)', out)`: collect
the captures at every position.  Scanning from the next character rather than
from the end of a match is equivalent here because a consumed match (letters
"inet ", optional "addr:", then digits and dots) cannot contain the start of
another match at a later offset. -/
def findInetAux : List Char → List String
  | [] => []
  | c :: cs =>
      match matchInetAt (c :: cs) with
      | some q => q :: findInetAux cs
      | none => findInetAux cs

/-- The `ifconfig` / `ip addr show` branch of `get_machine_ip`: regex-scan the
stdout and return the first capture passing the filter. -/
def machine_ip_scan (out : String) : Option String :=
  (findInetAux out.data).findSome? fun ip => if validCandidate ip then some ip else none

/-- Embeds `NetTest.get_machine_ip` for the Linux platform branch: the socket
method, then `hostname -I`, then `ifconfig`, then `ip addr show`; every
failure falls through, and total failure returns the sentinel "n/a". -/
def get_machine_ip (env : MachineIpEnv) : String :=
  match machine_ip_method1 env.socketIps with
  | some ip => ip
  | none =>
      match env.hostnameOut.bind machine_ip_hostname with
      | some ip => ip
      | none =>
          match env.ifconfigOut.bind machine_ip_scan with
          | some ip => ip
          | none =>
              match env.ipAddrOut.bind machine_ip_scan with
              | some ip => ip
              | none => "n/a"

/-- Embeds `NetTest.get_interface_type` on Linux.  The Linux branch evaluates
`re.search(...)`, but the module never imports `re` at module level (the
`import re` inside `get_machine_ip` binds only a name local to that function),
so a `NameError` is raised and swallowed by the trailing
`except (..., Exception)` handler, returning "Unknown" on every call. -/
def get_interface_type_linux : String := "Unknown"

/-- Embeds `NetTest.measure_network_latency`: the source body is literally
`return 1`, regardless of connectivity. -/
def measure_network_latency : PyNum := PyNum.val 1

/-- Embeds `NetTest.measure_internet_ping`: the elapsed handshake time in whole
milliseconds when the TCP connection succeeds (supplied by the environment),
and the sentinel -1 on `socket.timeout` or `socket.error`. -/
def measure_internet_ping (pingMs : Option Nat) : Int :=
  match pingMs with
  | some ms => Int.ofNat ms
  | none => -1

/-- Embeds the `TestResult` dataclass.  Field defaults mirror the dataclass
defaults: `success=False`, `internet_connected=False`, every other payload
field `None`.  The dataclass default `timestamp=datetime.datetime.now()` is
evaluated once, when the class body executes at import time; `timestamp` here
is therefore that fixed class-definition instant (modelled as a `Nat` clock
reading), not a per-construction reading. -/
structure TestResult where
  success : Bool := false
  internet_connected : Option Bool := some false
  interface_type : Option String := none
  gateway_ip : Option String := none
  machine_ip : Option String := none
  network_latency : Option PyNum := none
  internet_ping : Option Int := none
  public_ip : Option String := none
  isp : Option String := none
  bandwidth_down_mbps : Option PyNum := none
  bandwidth_up_mbps : Option PyNum := none
  timestamp : Nat
deriving DecidableEq, Repr

/-- `TestResult()` with no arguments: every field at its dataclass default,
with the class-definition-time timestamp. -/
def TestResult.mkDefault (classDefTime : Nat) : TestResult :=
  { timestamp := classDefTime }

/-- The attribute lookup `self.measure_down_bandwidth` performed by `run_test`:
the method definition is commented out in the source, so the lookup raises
`AttributeError`. -/
def measure_down_bandwidth_attr : Except PyExn (Bool → PyNum) :=
  Except.error PyExn.attributeError

/-- The attribute lookup `self.measure_up_bandwidth` performed by `run_test`:
the method definition is commented out in the source, so the lookup raises
`AttributeError`. -/
def measure_up_bandwidth_attr : Except PyExn (Bool → PyNum) :=
  Except.error PyExn.attributeError

/-- Environment for one `run_test` call: the outcomes the outside world hands
each probe, in the order the probes consume them. -/
structure RunEnv where
  connectOk : Bool
  gw : GatewayEnv
  mip : MachineIpEnv
  pingMs : Option Nat
  ipify : HttpResult
  ipinfo : IspResult
deriving Repr

/-- The `try` body of `NetTest.run_test`: evaluate the `TestResult(...)`
arguments left to right — `is_connected()`, `get_interface_type()`,
`get_gateway_ip()` (which may raise), `get_machine_ip()`,
`measure_network_latency()`, `measure_internet_ping()`, `get_public_ip()`,
`get_isp_name()` — then look up `self.measure_down_bandwidth`, which raises
`AttributeError` because the method is commented out, before the record can
be constructed. -/
def run_test_body (classDefTime : Nat) (g : SocketGlobal) (cache : Option String)
    (env : RunEnv) : Except PyExn TestResult :=
  let conn := (is_connected 3 "8.8.8.8" 53 env.connectOk g).1
  let itype := get_interface_type_linux
  match get_gateway_ip_linux env.gw with
  | Except.error e => Except.error e
  | Except.ok gw =>
      let mip := get_machine_ip env.mip
      let lat := measure_network_latency
      let ping := measure_internet_ping env.pingMs
      let pres := get_public_ip cache env.ipify
      let ires := get_isp_name pres.cache env.ipinfo
      match measure_down_bandwidth_attr with
      | Except.error e => Except.error e
      | Except.ok down =>
          match measure_up_bandwidth_attr with
          | Except.error e => Except.error e
          | Except.ok up =>
              Except.ok
                { success := true
                  internet_connected := some conn
                  interface_type := some itype
                  gateway_ip := some gw
                  machine_ip := some mip
                  network_latency := some lat
                  internet_ping := some ping
                  public_ip := some pres.ret
                  isp := some ires.1
                  bandwidth_down_mbps := some (down true)
                  bandwidth_up_mbps := some (up true)
                  timestamp := classDefTime }

/-- Embeds `NetTest.run_test`: run the body, and on any exception return
`TestResult(success=False)` — all fields at their dataclass defaults. -/
def run_test (classDefTime : Nat) (g : SocketGlobal) (cache : Option String)
    (env : RunEnv) : TestResult :=
  match run_test_body classDefTime g cache env with
  | Except.ok r => r
  | Except.error _ => TestResult.mkDefault classDefTime

/-- Numeric value of a digit string. -/
def digitsToNat (l : List Char) : Nat :=
  l.foldl (fun acc c => acc * 10 + (c.toNat - 48)) 0

/-- Spec predicate, from the claim's words (not from the source): the string is
four dot-separated integers each in the range 0..255. -/
def isValidIPv4 (s : String) : Bool :=
  let parts := splitOnChar dotChar s
  parts.length == 4 && parts.all fun p =>
    !(p == "") && p.data.all Char.isDigit && decide (digitsToNat p.data ≤ 255)

/-! ## Helper lemmas -/

/-- Helper: a list with no space, followed by a space and a tail; the
split-at-first-space helper returns exactly the tail. -/
theorem afterFirstSpaceAux_append (l m : List Char) (h : containsSpace l = false) :
    afterFirstSpaceAux (l ++ spaceChar :: m) = m := by
  induction l with
  | nil => simp [afterFirstSpaceAux]
  | cons c cs ih =>
      simp only [containsSpace, List.any_cons, Bool.or_eq_false_iff,
        decide_eq_false_iff_not] at h
      simp only [List.cons_append, afterFirstSpaceAux, if_neg h.1]
      exact ih (by simp [containsSpace, h.2])

/-- Helper: a list containing an explicit space contains a space. -/
theorem containsSpace_append (l m : List Char) :
    containsSpace (l ++ spaceChar :: m) = true := by
  simp [containsSpace]

/-- Helper: the character data of `asn ++ " " ++ name`. -/
theorem data_append_space (asn name : String) :
    (asn ++ " " ++ name).data = asn.data ++ spaceChar :: name.data := by
  cases asn with
  | mk l1 =>
      cases name with
      | mk l2 => simp [String.data_append]; rfl

/-- Helper: a nonempty-data string is not the empty string (in `BEq` form). -/
theorem beq_empty_false_of_data (s : String) (c : Char) (l r : List Char)
    (h : s.data = l ++ c :: r) : (s == "") = false := by
  rw [beq_eq_false_iff_ne]
  intro he
  have hd := congrArg String.data he
  rw [h] at hd
  simp at hd

/-- Helper: `ispFromOrg` strips the leading space-free ASN token. -/
theorem ispFromOrg_strip (asn name : String) (h1 : containsSpace asn.data = false) :
    ispFromOrg (some (asn ++ " " ++ name)) = name := by
  have hdata := data_append_space asn name
  have hne : ((asn ++ " " ++ name) == "") = false :=
    beq_empty_false_of_data _ _ _ _ hdata
  have hcs : containsSpace (asn ++ " " ++ name).data = true := by
    rw [hdata]; exact containsSpace_append _ _
  have hafs : afterFirstSpace (asn ++ " " ++ name) = name := by
    unfold afterFirstSpace
    rw [hdata, afterFirstSpaceAux_append _ _ h1]
  simp only [ispFromOrg]
  rw [hne, hcs, hafs]
  simp

/-- Helper: `run_test` always returns the all-defaults failure record — the
body raises (`NameError` from the gateway stage, or the unconditional
`AttributeError` from the missing bandwidth methods) on every input. -/
theorem run_test_eq_mkDefault (cdt : Nat) (g : SocketGlobal) (cache : Option String)
    (env : RunEnv) : run_test cdt g cache env = TestResult.mkDefault cdt := by
  unfold run_test run_test_body
  cases get_gateway_ip_linux env.gw <;> rfl

/-- An environment in which every outbound operation fails: the TCP connect
fails, `/proc/net/route` holds only its header, every subprocess errors, the
UDP socket cannot route, the handshake times out, and both HTTP endpoints are
unreachable. -/
def allFailEnv : RunEnv :=
  { connectOk := false
    gw := { procNetRoute := some ["Iface\tDestination\tGateway\tFlags"]
            ipRouteOut := none
            udpLocalIp := none }
    mip := { socketIps := [none, none, none]
             hostnameOut := none
             ifconfigOut := none
             ipAddrOut := none }
    pingMs := none
    ipify := HttpResult.transportError
    ipinfo := IspResult.transportError }

/-- A Linux gateway environment whose `/proc/net/route` holds a normal default
route (destination `00000000`, nonzero gateway), the common case on any
connected Linux host. -/
def linuxDefaultRouteEnv : GatewayEnv :=
  { procNetRoute := some
      ["Iface\tDestination\tGateway\tFlags\tRefCnt\tUse\tMetric\tMask",
       "eth0\t00000000\t0101A8C0\t0003\t0\t0\t0\t00000000\t0\t0\t0"]
    ipRouteOut := none
    udpLocalIp := none }

/-- A machine-IP environment whose first socket probe reports the out-of-range
address "999.0.0.1". -/
def badOctetMachineEnv : MachineIpEnv :=
  { socketIps := [some "999.0.0.1"]
    hostnameOut := none
    ifconfigOut := none
    ipAddrOut := none }

/-- A gateway environment with a header-only routing table whose
`ip r s 0/0` stdout names the out-of-range gateway "999.0.0.1". -/
def badOctetGatewayEnv : GatewayEnv :=
  { procNetRoute := some ["Iface\tDestination\tGateway"]
    ipRouteOut := some "default via 999.0.0.1 dev eth0"
    udpLocalIp := none }

/-- A gateway environment that reaches the ".1" heuristic fallback from the
unvalidated UDP-socket local address "300.1.2.3". -/
def heuristicGatewayEnv : GatewayEnv :=
  { procNetRoute := some ["Iface\tDestination\tGateway"]
    ipRouteOut := none
    udpLocalIp := some "300.1.2.3" }

/-! ## Claims -/

/-- Claim C1: the spec says a run in which every outbound operation fails
yields `success=true` with the per-probe failure sentinels
(`internet_connected=false`, `internet_ping=-1`, `network_latency=+inf`,
`public_ip="n/a"`, `isp="n/a"`).  The code instead returns
`TestResult(success=False)` with every field at its dataclass default on every
call: `run_test` unconditionally evaluates `self.measure_down_bandwidth`, a
method that is commented out, so an `AttributeError` reaches the top-level
handler before the populated record can be built. -/
theorem C1_all_fail_run_returns_failure_record :
    run_test 0 { defaultTimeout := none } none allFailEnv = TestResult.mkDefault 0 ∧
    (run_test 0 { defaultTimeout := none } none allFailEnv).success = false ∧
    (run_test 0 { defaultTimeout := none } none allFailEnv).public_ip ≠ some "n/a" ∧
    (run_test 0 { defaultTimeout := none } none allFailEnv).isp ≠ some "n/a" ∧
    (run_test 0 { defaultTimeout := none } none allFailEnv).internet_ping ≠ some (-1) ∧
    (run_test 0 { defaultTimeout := none } none allFailEnv).network_latency ≠
      some PyNum.posInf := by
  have h := run_test_eq_mkDefault 0 { defaultTimeout := none } none allFailEnv
  refine ⟨h, ?_, ?_, ?_, ?_, ?_⟩ <;> rw [h] <;> decide

/-- Claim C2: the spec says `measure_network_latency` returns `+infinity`
whenever connectivity is false, else a non-negative float.  The code body is
the stub `return 1`: the value is `1` irrespective of connectivity and is
never the required infinity — contradicting the repo's own test suite, which
asserts `float('inf')` when offline. -/
theorem C2_latency_is_stub_one :
    measure_network_latency = PyNum.val 1 ∧ measure_network_latency ≠ PyNum.posInf :=
  ⟨rfl, by decide⟩

/-- Claim C3: the spec says every parse or command failure in `get_gateway_ip`
falls through to the next stage, total failure returns "n/a", and no exception
crosses the public boundary.  On Linux, with the ordinary `/proc/net/route`
contents of a connected host (a default-route line with a nonzero gateway
field), the method instead raises `NameError`: `struct` is never imported, so
`struct.pack` — and the except clause `(IOError, ValueError, struct.error)`
meant to implement the fallthrough — raises, and the outer handler catches
only subprocess errors. -/
theorem C3_gateway_name_error_escapes :
    get_gateway_ip_linux linuxDefaultRouteEnv = Except.error PyExn.nameError := rfl

/-- Claim C4 counterexample: a successful first call whose body is whitespace
only.  The first GET succeeds and returns the trimmed body `""`; the cache
presence check `if self._public_ip:` then treats the stored empty string as
absent, so the second call issues another network request and returns a
different string — refuting "a second call after a successful first call
returns the identical string" (and the absence of a second request). -/
theorem C4_counterexample_second_call_differs :
    (get_public_ip none (HttpResult.success "\n")).ret = "" ∧
    (get_public_ip (get_public_ip none (HttpResult.success "\n")).cache
        (HttpResult.success "203.0.113.7")).ret = "203.0.113.7" ∧
    (get_public_ip (get_public_ip none (HttpResult.success "\n")).cache
        (HttpResult.success "203.0.113.7")).ret ≠
      (get_public_ip none (HttpResult.success "\n")).ret ∧
    (get_public_ip (get_public_ip none (HttpResult.success "\n")).cache
        (HttpResult.success "203.0.113.7")).requested = true := by
  decide

/-- Claim C4 (amended): `get_public_ip` is a get-or-compute-once accessor for
non-empty values.  A cached non-empty value is returned unconditionally with
no network request; a successful GET whose trimmed body is non-empty caches
and returns that body, and a following call returns the identical cached
string without a request; any transport or HTTP-status error returns "n/a"
and leaves the cache unchanged (still empty when it was empty), so a later
call issues a fresh request. -/
theorem C4_amended_cache_semantics (cache : Option String) (s b : String)
    (e r2 : HttpResult) :
    (cache = some s → s ≠ "" →
      get_public_ip cache e = { ret := s, cache := cache, requested := false }) ∧
    (pyStrip b ≠ "" →
      get_public_ip none (HttpResult.success b) =
        { ret := pyStrip b, cache := some (pyStrip b), requested := true } ∧
      get_public_ip (some (pyStrip b)) r2 =
        { ret := pyStrip b, cache := some (pyStrip b), requested := false }) ∧
    (isErrResp e = true →
      (get_public_ip none e).ret = "n/a" ∧ (get_public_ip none e).cache = none ∧
      (get_public_ip none r2).requested = true) := by
  refine ⟨?_, ?_, ?_⟩
  · rintro rfl hs
    simp [get_public_ip, pyTruthy, hs]
  · intro hb
    constructor
    · rfl
    · simp [get_public_ip, pyTruthy, hb]
  · intro he
    refine ⟨?_, ?_, ?_⟩
    · cases e <;> simp_all [get_public_ip, pyTruthy, isErrResp]
    · cases e <;> simp_all [get_public_ip, pyTruthy, isErrResp]
    · cases r2 <;> rfl

/-- Claim C4 amended witness: concrete instantiations of all three branches of
the amended theorem — a cached value returned without a request, a successful
non-empty GET cached then served from cache, and an error yielding "n/a". -/
theorem C4_amended_witness :
    get_public_ip (some "203.0.113.7") HttpResult.transportError =
      { ret := "203.0.113.7", cache := some "203.0.113.7", requested := false } ∧
    pyStrip " 9.9.9.9 " ≠ "" ∧
    get_public_ip none (HttpResult.success " 9.9.9.9 ") =
      { ret := pyStrip " 9.9.9.9 ", cache := some (pyStrip " 9.9.9.9 "),
        requested := true } ∧
    get_public_ip (some (pyStrip " 9.9.9.9 ")) (HttpResult.success "x") =
      { ret := pyStrip " 9.9.9.9 ", cache := some (pyStrip " 9.9.9.9 "),
        requested := false } ∧
    (get_public_ip none HttpResult.transportError).ret = "n/a" :=
  ⟨(C4_amended_cache_semantics (some "203.0.113.7") "203.0.113.7" ""
      HttpResult.transportError HttpResult.transportError).1 rfl (by decide),
   by decide,
   ((C4_amended_cache_semantics none "x" " 9.9.9.9 " HttpResult.transportError
      (HttpResult.success "x")).2.1 (by decide)).1,
   ((C4_amended_cache_semantics none "x" " 9.9.9.9 " HttpResult.transportError
      (HttpResult.success "x")).2.1 (by decide)).2,
   ((C4_amended_cache_semantics none "x" " 9.9.9.9 " HttpResult.transportError
      (HttpResult.success "x")).2.2 rfl).1⟩

/-- Claim C5: when the identity endpoint's JSON has an "org" field of the form
`"<ASN> <Name>"` (a leading space-free token, a space, then the name),
`get_isp_name` returns `"<Name>"` with the ASN token stripped; and when the
"org" field is absent it returns "n/a". -/
theorem C5_isp_org_parsing (cache : Option String) (j j2 : IpInfoJson)
    (asn name : String) (h1 : containsSpace asn.data = false)
    (h2 : j.org = some (asn ++ " " ++ name)) (h3 : j2.org = none) :
    (get_isp_name cache (IspResult.success j)).1 = name ∧
    (get_isp_name cache (IspResult.success j2)).1 = "n/a" := by
  constructor
  · show ispFromOrg j.org = name
    rw [h2]
    exact ispFromOrg_strip asn name h1
  · show ispFromOrg j2.org = "n/a"
    rw [h3]
    rfl

/-- Claim C5 witness: the spec's two scenarios, with the concrete JSON bodies
`{"org":"AS36947 Telecom Algeria","ip":"203.0.113.7"}` and
`{"ip":"203.0.113.7"}`. -/
theorem C5_witness :
    containsSpace "AS36947".data = false ∧
    (get_isp_name none (IspResult.success
        { org := some ("AS36947" ++ " " ++ "Telecom Algeria"),
          ip := some "203.0.113.7" })).1 = "Telecom Algeria" ∧
    (get_isp_name none (IspResult.success
        { org := none, ip := some "203.0.113.7" })).1 = "n/a" :=
  ⟨by decide,
   (C5_isp_org_parsing none
      { org := some ("AS36947" ++ " " ++ "Telecom Algeria"), ip := some "203.0.113.7" }
      { org := none, ip := some "203.0.113.7" }
      "AS36947" "Telecom Algeria" (by decide) rfl rfl).1,
   (C5_isp_org_parsing none
      { org := some ("AS36947" ++ " " ++ "Telecom Algeria"), ip := some "203.0.113.7" }
      { org := none, ip := some "203.0.113.7" }
      "AS36947" "Telecom Algeria" (by decide) rfl rfl).2⟩

/-- Claim C6: the spec says a report's timestamp equals the instant the report
was constructed, so reports constructed at different instants differ.  The
dataclass default `timestamp=datetime.datetime.now()` is evaluated once, when
the class body executes at import time, and `run_test` never passes a
timestamp; every report therefore carries the fixed class-definition instant
`classDefTime`, identical across runs whatever the state and environment at
construction time. -/
theorem C6_timestamp_is_class_def_time (cdt : Nat) (g g2 : SocketGlobal)
    (c c2 : Option String) (e e2 : RunEnv) :
    (run_test cdt g c e).timestamp = cdt ∧
    (run_test cdt g2 c2 e2).timestamp = (run_test cdt g c e).timestamp := by
  rw [run_test_eq_mkDefault cdt g c e, run_test_eq_mkDefault cdt g2 c2 e2]
  exact ⟨rfl, rfl⟩

/-- Claim C7: for every report returned by `run_test`, `success=false` implies
the whole record equals `TestResult()` with every field at its dataclass
default — a failed report is never partially populated with results from
probes that ran before the failure. -/
theorem C7_failed_report_all_defaults (cdt : Nat) (g : SocketGlobal)
    (cache : Option String) (env : RunEnv)
    (_h : (run_test cdt g cache env).success = false) :
    run_test cdt g cache env = TestResult.mkDefault cdt :=
  run_test_eq_mkDefault cdt g cache env

/-- Claim C7 witness: the all-fail environment produces a `success=false`
report, and the theorem applies to it. -/
theorem C7_witness :
    (run_test 0 { defaultTimeout := none } none allFailEnv).success = false ∧
    run_test 0 { defaultTimeout := none } none allFailEnv = TestResult.mkDefault 0 :=
  ⟨by decide,
   C7_failed_report_all_defaults 0 { defaultTimeout := none } none allFailEnv
     (by decide)⟩

/-- Claim C8 counterexample: the public-IP endpoint answers 200 with the body
"999.0.0.1".  `get_public_ip` returns it verbatim: not the sentinel "n/a" and
not four dot-separated integers each in [0,255] (999 > 255) — the code never
validates the IP strings it returns. -/
theorem C8_counterexample_public_ip_unvalidated :
    (get_public_ip none (HttpResult.success "999.0.0.1")).ret = "999.0.0.1" ∧
    isValidIPv4 "999.0.0.1" = false ∧ "999.0.0.1" ≠ "n/a" := by
  decide

/-- Claim C8 (amended): none of the three operations validates dotted-quad
shape or octet range; what each guarantees is only the sentinel or provenance.
`get_public_ip` returns "n/a", the cached value, or the whitespace-trimmed
response body verbatim.  `get_gateway_ip` (Linux) raises, or returns "n/a", a
token scanned from the `ip r s 0/0` stdout (`gateway_stage_b`), or the string
it itself constructs by appending ".1" to the first three dot-separated parts
of the unvalidated UDP-socket local address (`gateway_stage_c`).
`get_machine_ip` returns "n/a" or the value of one of its four environment
stages (socket candidates, `hostname -I` tokens, regex captures from
`ifconfig` / `ip addr show`).  Concretely, the out-of-range "999.0.0.1"
passes through `get_machine_ip` and `get_gateway_ip` unchecked, and the
heuristic constructs the invalid "300.1.2.1" from the local address
"300.1.2.3". -/
theorem C8_amended_no_validation_provenance :
    (∀ (cache : Option String) (resp : HttpResult),
      (get_public_ip cache resp).ret = "n/a" ∨
      some (get_public_ip cache resp).ret = cache ∨
      (∃ b, resp = HttpResult.success b ∧ (get_public_ip cache resp).ret = pyStrip b)) ∧
    (∀ env : GatewayEnv,
      (∃ e, get_gateway_ip_linux env = Except.error e) ∨
      get_gateway_ip_linux env = Except.ok "n/a" ∨
      (∃ out r, env.ipRouteOut = some out ∧ gateway_stage_b out = some r ∧
        get_gateway_ip_linux env = Except.ok r) ∨
      (∃ r, gateway_stage_c env.udpLocalIp = some r ∧
        get_gateway_ip_linux env = Except.ok r)) ∧
    (∀ env : MachineIpEnv,
      get_machine_ip env = "n/a" ∨
      machine_ip_method1 env.socketIps = some (get_machine_ip env) ∨
      env.hostnameOut.bind machine_ip_hostname = some (get_machine_ip env) ∨
      env.ifconfigOut.bind machine_ip_scan = some (get_machine_ip env) ∨
      env.ipAddrOut.bind machine_ip_scan = some (get_machine_ip env)) ∧
    (get_machine_ip badOctetMachineEnv = "999.0.0.1" ∧
      isValidIPv4 "999.0.0.1" = false) ∧
    get_gateway_ip_linux badOctetGatewayEnv = Except.ok "999.0.0.1" ∧
    (get_gateway_ip_linux heuristicGatewayEnv = Except.ok "300.1.2.1" ∧
      isValidIPv4 "300.1.2.1" = false) := by
  refine ⟨?_, ?_, ?_, by decide, rfl, rfl, by decide⟩
  · intro cache resp
    by_cases h : pyTruthy cache = true
    · right; left
      cases cache with
      | none => simp [pyTruthy] at h
      | some s => simp [get_public_ip, h]
    · have h2 : pyTruthy cache = false := by simpa using h
      cases resp with
      | success body =>
          right; right
          exact ⟨body, rfl, by simp [get_public_ip, h2]⟩
      | httpError c => left; simp [get_public_ip, h2]
      | transportError => left; simp [get_public_ip, h2]
  · intro env
    unfold get_gateway_ip_linux
    cases ha : gateway_stage_a env.procNetRoute with
    | error e => exact Or.inl ⟨e, rfl⟩
    | ok u =>
        cases hro : env.ipRouteOut with
        | none =>
            cases hc : gateway_stage_c env.udpLocalIp with
            | none => right; left; rfl
            | some r => right; right; right; exact ⟨r, rfl, rfl⟩
        | some out =>
            cases hb : gateway_stage_b out with
            | none =>
                cases hc : gateway_stage_c env.udpLocalIp with
                | none => right; left; simp [hb]
                | some r => right; right; right; exact ⟨r, rfl, by simp [hb]⟩
            | some r => right; right; left; exact ⟨out, r, rfl, hb, by simp [hb]⟩
  · intro env
    unfold get_machine_ip
    cases h1 : machine_ip_method1 env.socketIps with
    | some ip => right; left; rfl
    | none =>
        cases h2 : env.hostnameOut.bind machine_ip_hostname with
        | some ip => right; right; left; rfl
        | none =>
            cases h3 : env.ifconfigOut.bind machine_ip_scan with
            | some ip => right; right; right; left; rfl
            | none =>
                cases h4 : env.ipAddrOut.bind machine_ip_scan with
                | some ip => right; right; right; right; rfl
                | none => left; rfl

/-- Claim C9 counterexample: `is_connected` calls `socket.setdefaulttimeout`,
mutating the process-wide default socket timeout, and never restores it; with
the default previously unset, observable process-wide state before and after
the call differ. -/
theorem C9_counterexample_global_timeout_mutated :
    (is_connected 3 "8.8.8.8" 53 true { defaultTimeout := none }).2 ≠
      ({ defaultTimeout := none } : SocketGlobal) := by
  decide

/-- Claim C9 (amended): beyond the transient socket, `is_connected`'s one
persistent observable effect is that it sets the process-wide default socket
timeout (`socket.setdefaulttimeout`) to its `timeout` argument; that
assignment is its entire state change, and the return value is exactly the
environment's connect outcome. -/
theorem C9_amended_sets_default_timeout (t : ℚ) (hst : String) (p : Nat) (ok : Bool)
    (g : SocketGlobal) :
    is_connected t hst p ok g = (ok, { defaultTimeout := some t }) := rfl

/-- Claim C10: a successful GET whose body trims to the empty string makes
`get_public_ip` return "" (not the "n/a" sentinel); the assignment stores the
empty string, which the presence check `if self._public_ip:` treats as absent
(so the value is effectively not cached), and a subsequent call issues a fresh
network request instead of returning a cached value. -/
theorem C10_empty_body_returned_not_cached (b : String) (r2 : HttpResult)
    (hb : pyStrip b = "") :
    (get_public_ip none (HttpResult.success b)).ret = "" ∧
    (get_public_ip none (HttpResult.success b)).ret ≠ "n/a" ∧
    pyTruthy (get_public_ip none (HttpResult.success b)).cache = false ∧
    (get_public_ip (get_public_ip none (HttpResult.success b)).cache r2).requested =
      true := by
  have h0 : get_public_ip none (HttpResult.success b) =
      { ret := pyStrip b, cache := some (pyStrip b), requested := true } := rfl
  rw [h0, hb]
  refine ⟨rfl, by decide, by decide, ?_⟩
  cases r2 <;> rfl

/-- Claim C10 witness: the concrete whitespace-only body "  " followed by a
successful second GET. -/
theorem C10_witness :
    pyStrip "  " = "" ∧
    ((get_public_ip none (HttpResult.success "  ")).ret = "" ∧
     (get_public_ip none (HttpResult.success "  ")).ret ≠ "n/a" ∧
     pyTruthy (get_public_ip none (HttpResult.success "  ")).cache = false ∧
     (get_public_ip (get_public_ip none (HttpResult.success "  ")).cache
        (HttpResult.success "203.0.113.7")).requested = true) :=
  ⟨by decide,
   C10_empty_body_returned_not_cached "  " (HttpResult.success "203.0.113.7")
     (by decide)⟩
